import Mathlib

/-!
Verification of the GPT_UI provider-client core (src/ai_client.py, src/app.py)
against its natural-language specification.  The Python code is shallowly
embedded: dictionaries become structures, exceptions become Except values,
generators become lists of emitted fragments, and the module-level client
cache becomes explicit state passing.
-/

namespace GPTUI

/-- The source dictionary of a file-bearing content block:
Python dict of shape s = d with d.type and d.file_id keys. -/
structure BlockSource where
  type : String
  file_id : String
deriving DecidableEq

/-- A dict-valued content block as it appears in messages: has a type key and
optional text, source and filename keys.  Pass-through in the translator keeps
every key, which this fixed field set models exactly for the dict shapes the
application produces. -/
structure BlockDict where
  type : String
  text : Option String := none
  source : Option BlockSource := none
  filename : Option String := none
deriving DecidableEq

/-- One element of a list-valued message content: a plain string, a dict, or
some other Python value (which the translator silently drops). -/
inductive Block where
  | str (s : String)
  | dict (d : BlockDict)
  | other (stringified : String)
deriving DecidableEq

/-- A message content value: a string, a list of blocks, or some other value
(translated via the str() fallback). -/
inductive Content where
  | str (s : String)
  | blocks (bs : List Block)
  | other (stringified : String)
deriving DecidableEq

/-- An input chat message in the OpenAI-style neutral format. -/
structure Message where
  role : String
  content : Content
deriving DecidableEq

/-- Content of a translated (Claude-format) message: a string or a list of
dict blocks (the translator only ever emits dicts inside lists). -/
inductive CContent where
  | str (s : String)
  | blocks (bs : List BlockDict)
deriving DecidableEq

/-- A translated (Claude-format) message. -/
structure CMessage where
  role : String
  content : CContent
deriving DecidableEq

/-- Python str.startswith, embedded on the character lists of the strings. -/
def pyStartsWith (s p : String) : Bool := p.data.isPrefixOf s.data

/-- Python str.strip: drop ASCII whitespace from both ends. -/
def pyStrip (s : String) : String :=
  String.mk (((s.data.dropWhile Char.isWhitespace).reverse.dropWhile
    Char.isWhitespace).reverse)

/-- First loop of ClaudeClient._convert_messages_to_claude_format: translate
one message, skipping system messages; string content passes through, list
content is translated block-by-block (strings become text dicts, dicts pass
through, anything else is dropped), other content is stringified. -/
def translateBlock : Block → Option BlockDict
  | Block.str s => some { type := "text", text := some s }
  | Block.dict d => some d
  | Block.other _ => none

/-- Translation of a single message (none for system messages, which the
first loop skips with continue). -/
def translateMsg (m : Message) : Option CMessage :=
  if m.role == "system" then none
  else some { role := m.role,
              content :=
                match m.content with
                | Content.str s => CContent.str s
                | Content.blocks bs => CContent.blocks (bs.filterMap translateBlock)
                | Content.other r => CContent.str r }

/-- Contribution of one system message content to system_content: string
content contributes itself plus a blank line; a block list contributes each
dict text block plus a blank line; anything else contributes nothing. -/
def systemTextOf : Content → String
  | Content.str s => s ++ "\n\n"
  | Content.blocks bs =>
      bs.foldl (fun acc b =>
        match b with
        | Block.dict d => if d.type == "text" then acc ++ d.text.getD "" ++ "\n\n" else acc
        | _ => acc) ""
  | Content.other _ => ""

/-- Second loop of _convert_messages_to_claude_format: concatenate the system
texts of all system messages. -/
def system_content (messages : List Message) : String :=
  messages.foldl (fun acc m =>
    if m.role == "system" then acc ++ systemTextOf m.content else acc) ""

/-- The leading text block inserted when the first user message is
block-structured. -/
def sysTextBlock (sys : String) : BlockDict := { type := "text", text := some sys }

/-- Final step of _convert_messages_to_claude_format: when the system text is
nonempty and the first translated message is a user message, prepend the
system text to its string content, or insert it as a new leading text block
into its block content. -/
def foldSystemIntoHead (sys : String) : List CMessage → List CMessage
  | [] => []
  | m0 :: rest =>
    if (!(sys == "")) && (m0.role == "user") then
      match m0.content with
      | CContent.str s => { m0 with content := CContent.str (sys ++ s) } :: rest
      | CContent.blocks bs =>
          { m0 with content := CContent.blocks (sysTextBlock sys :: bs) } :: rest
    else m0 :: rest

/-- ClaudeClient._convert_messages_to_claude_format: translate all messages
and then prepend the concatenated system text to the first message when it is
a user message and the system text is nonempty. -/
def convert_messages_to_claude_format (messages : List Message) : List CMessage :=
  foldSystemIntoHead (system_content messages) (messages.filterMap translateMsg)

/-- One block is a file reference: type is document, image or
container_upload and its source has type file. -/
def blockHasFileSource (d : BlockDict) : Bool :=
  (d.type == "document" || d.type == "image" || d.type == "container_upload") &&
  (match d.source with
   | some s => s.type == "file"
   | none => false)

/-- ClaudeClient._has_file_references over translated messages. -/
def has_file_references (ms : List CMessage) : Bool :=
  ms.any (fun m =>
    match m.content with
    | CContent.blocks bs => bs.any blockHasFileSource
    | _ => false)

/-- The keyword arguments handed to the anthropic transport: model,
max_tokens, converted messages, the stream flag, the optional thinking budget
and whether the files beta header is attached. -/
structure RequestParams where
  model : String
  max_tokens : Nat
  messages : List CMessage
  stream : Bool
  thinking_budget : Option Nat
  anthropic_beta : Bool
deriving DecidableEq

/-- Request construction shared by ClaudeClient.create_stream and
ClaudeClient.create_response. -/
def claude_request (messages : List Message) (model : String)
    (thinking_enabled : Bool) (thinking_budget : Nat) (stream : Bool) : RequestParams :=
  let cms := convert_messages_to_claude_format messages
  { model := model, max_tokens := 16000, messages := cms, stream := stream,
    thinking_budget := if thinking_enabled then some thinking_budget else none,
    anthropic_beta := has_file_references cms }

/-- A content block of an anthropic non-streaming response. -/
inductive RespBlock where
  | thinking (s : String)
  | text (s : String)
  | otherBlock (t : String)
deriving DecidableEq

/-- An anthropic non-streaming response. -/
structure MsgResponse where
  content : List RespBlock
deriving DecidableEq

/-- Rendering of one response content block in create_response: a thinking
block contributes the thinking banner, its text and the divider plus the
response banner; a text block contributes its text; others contribute
nothing. -/
def renderRespBlock (acc : String) : RespBlock → String
  | RespBlock.thinking s =>
      acc ++ "\n🧠 **Claude is thinking:**\n\n" ++ s ++
        "\n\n---\n\n💬 **Claude\x27s response:**\n\n"
  | RespBlock.text s => acc ++ s
  | RespBlock.otherBlock _ => acc

/-- The delta payload of a content_block_delta event: may expose a thinking
attribute, a text attribute, both or neither (attribute probing in the
source). -/
structure Delta where
  thinking : Option String := none
  text : Option String := none
deriving DecidableEq

/-- An anthropic stream event, keyed by its type string. -/
inductive AEvent where
  | message_start
  | content_block_start (blockType : String)
  | content_block_delta (delta : Delta)
  | content_block_stop
  | message_stop
  | otherEvent (t : String)
deriving DecidableEq

/-- Loop state of ClaudeClient.create_stream. -/
structure StreamState where
  thinking_content : String
  text_content : String
  current_content_type : Option String
deriving DecidableEq

/-- Initial loop state. -/
def initStream : StreamState :=
  { thinking_content := "", text_content := "", current_content_type := none }

/-- Header fragment yielded on entering a thinking block. -/
def thinkingHeader : String := "\n🧠 **Claude is thinking:**\n\n"

/-- Divider fragment yielded on leaving a thinking block. -/
def thinkingDivider : String := "\n\n---\n"

/-- Header fragment yielded before the first answer text after thinking. -/
def answerHeader : String := "\n\n💬 **Claude\x27s response:**\n\n"

/-- The text-delta arm of the loop: append the chunk to text_content; if
thinking content was seen and the accumulated text does not start with a
newline, yield the answer header first and reset text_content to the header
plus the chunk. -/
def handleTextDelta (st : StreamState) (d : Delta) : List String × StreamState :=
  match d.text with
  | some x =>
    if x == "" then ([], st)
    else
      let tc := st.text_content ++ x
      if (!(st.thinking_content == "")) && (!(pyStartsWith tc "\n")) then
        ([answerHeader, x], { st with text_content := answerHeader ++ x })
      else
        ([x], { st with text_content := tc })
  | none => ([], st)

/-- One iteration of the event loop of ClaudeClient.create_stream (without
the break on message_stop, which the driving loop handles): returns the
yielded fragments and the next state. -/
def stepEvent (st : StreamState) : AEvent → List String × StreamState
  | AEvent.message_start => ([], st)
  | AEvent.content_block_start t =>
      if t == "thinking" then
        ([thinkingHeader], { st with current_content_type := some t, thinking_content := "" })
      else
        ([], { st with current_content_type := some t })
  | AEvent.content_block_delta d =>
      match d.thinking with
      | some tchunk =>
          if tchunk == "" then handleTextDelta st d
          else ([tchunk], { st with thinking_content := st.thinking_content ++ tchunk })
      | none => handleTextDelta st d
  | AEvent.content_block_stop =>
      if st.current_content_type == some "thinking" then ([thinkingDivider], st)
      else ([], st)
  | AEvent.message_stop => ([], st)
  | AEvent.otherEvent _ => ([], st)

/-- The event loop: iterating the transport may itself raise (an error item),
in which case the surrounding except yields one final error fragment; a
message_stop event breaks out of the loop immediately. -/
def runEventsExc : StreamState → List (Except String AEvent) → List String
  | _, [] => []
  | _, Except.error e :: _ => ["Error: " ++ e]
  | st, Except.ok e :: rest =>
      if e == AEvent.message_stop then []
      else
        let p := stepEvent st e
        p.1 ++ runEventsExc p.2 rest

namespace ClaudeClient

/-- ClaudeClient.create_stream: build the request, call the transport (which
may raise at creation or while iterating) and normalize the event stream; any
exception is caught and converted into a final error fragment. -/
def create_stream
    (transport : RequestParams → Except String (List (Except String AEvent)))
    (messages : List Message) (model : String)
    (thinking_enabled : Bool) (thinking_budget : Nat) : List String :=
  let params := claude_request messages model thinking_enabled thinking_budget true
  match transport params with
  | Except.error e => ["Error: " ++ e]
  | Except.ok events => runEventsExc initStream events

/-- ClaudeClient.create_response: build the request and call the transport
exactly once (the body has a single call site and no loop); on success render
the content blocks and strip; on exception return the error string.  The
transport is indexed by the attempt number (mock side_effect style) and the
second component counts how many transport calls were made. -/
def create_response
    (transport : Nat → RequestParams → Except String MsgResponse)
    (messages : List Message) (model : String)
    (thinking_enabled : Bool) (thinking_budget : Nat) : String × Nat :=
  let params := claude_request messages model thinking_enabled thinking_budget false
  match transport 0 params with
  | Except.ok resp => (pyStrip (resp.content.foldl renderRespBlock ""), 1)
  | Except.error e => ("Error: " ++ e, 1)

end ClaudeClient

/-- The request sent by OpenAIClient: the raw messages, the model and the
stream flag.  The thinking options do not appear: the source body never reads
them. -/
structure OpenAIRequest where
  messages : List Message
  model : String
  stream : Bool
deriving DecidableEq

namespace OpenAIClient

/-- The chunk loop of OpenAIClient.create_stream: each chunk yields its delta
content when nonempty (content or two-empty-string fallback); an exception
while iterating is caught and converted into a final error fragment. -/
def runChunks : List (Except String (Option String)) → List String
  | [] => []
  | Except.error e :: _ => ["Error: " ++ e]
  | Except.ok c :: rest =>
      let content := c.getD ""
      (if content == "" then [] else [content]) ++ runChunks rest

/-- OpenAIClient.create_stream: issue the request (thinking options ignored)
and yield the chunk contents; any exception becomes a final error fragment. -/
def create_stream
    (transport : OpenAIRequest → Except String (List (Except String (Option String))))
    (messages : List Message) (model : String)
    (thinking_enabled : Bool) (thinking_budget : Nat) : List String :=
  match transport { messages := messages, model := model, stream := true } with
  | Except.error e => ["Error: " ++ e]
  | Except.ok chunks => runChunks chunks

/-- OpenAIClient.create_response: issue the request (thinking options
ignored) and return the message content; any exception becomes an error
string. -/
def create_response
    (transport : OpenAIRequest → Except String String)
    (messages : List Message) (model : String)
    (thinking_enabled : Bool) (thinking_budget : Nat) : String :=
  match transport { messages := messages, model := model, stream := false } with
  | Except.ok content => content
  | Except.error e => "Error: " ++ e

end OpenAIClient

/-- A tool capability descriptor per the specification (section 3). -/
structure ToolSpec where
  name : String
  max_uses : Option Nat := none
  allowed_domains : List String := []
  blocked_domains : List String := []
  location : Option String := none
deriving DecidableEq

namespace OpenAIClient

/-- Modelled from the spec: the tools option of section 4.2 is absent from
this revision of the OpenAIClient.create_stream signature (only the web
search tests and example call a tools parameter); per the spec a provider
lacking a capability silently ignores the corresponding option.  The wrapper
forwards to the source-embedded create_stream and ignores tools. -/
def create_stream_with_options
    (transport : OpenAIRequest → Except String (List (Except String (Option String))))
    (messages : List Message) (model : String)
    (thinking_enabled : Bool) (thinking_budget : Nat)
    (tools : Option (List ToolSpec)) : List String :=
  create_stream transport messages model thinking_enabled thinking_budget

/-- Modelled from the spec: the tools option of section 4.2 is absent from
this revision of the OpenAIClient.create_response signature; per the spec a
provider lacking a capability silently ignores the corresponding option.  The
wrapper forwards to the source-embedded create_response and ignores tools. -/
def create_response_with_options
    (transport : OpenAIRequest → Except String String)
    (messages : List Message) (model : String)
    (thinking_enabled : Bool) (thinking_budget : Nat)
    (tools : Option (List ToolSpec)) : String :=
  create_response transport messages model thinking_enabled thinking_budget

end OpenAIClient

/-- Metadata of an uploaded file as used by app.create_file_reference. -/
structure FileInfo where
  id : String
  filename : String
  mime_type : String
deriving DecidableEq

/-- The code and text extension tuple of app.create_file_reference. -/
def code_extensions_app : List String :=
  [".py", ".pyw", ".js", ".jsx", ".ts", ".tsx", ".html", ".htm", ".css",
   ".scss", ".sass", ".md", ".txt", ".json", ".xml", ".yaml", ".yml", ".sql",
   ".sh", ".bat", ".ps1", ".php", ".rb", ".go", ".rs", ".cpp", ".c", ".h",
   ".hpp", ".java", ".kt", ".swift", ".r", ".m", ".pl", ".lua", ".vim",
   ".dockerfile"]

/-- app.create_file_reference: build a document, image or container_upload
block from the file info; the human filename is kept on the block for UI
display. -/
def create_file_reference (fi : FileInfo) : BlockDict :=
  let lowname := fi.filename.toLower
  if fi.mime_type == "application/pdf" || fi.mime_type == "text/plain"
      || code_extensions_app.any (fun ext => lowname.endsWith ext) then
    { type := "document", source := some { type := "file", file_id := fi.id },
      filename := some fi.filename }
  else if pyStartsWith fi.mime_type "image/" then
    { type := "image", source := some { type := "file", file_id := fi.id },
      filename := some fi.filename }
  else
    { type := "container_upload", source := some { type := "file", file_id := fi.id },
      filename := some fi.filename }

/-- The dict comprehension of app.py line 417 that removes the filename key
from a file reference before it is added to the outgoing message. -/
def strip_filename_key (d : BlockDict) : BlockDict := { d with filename := none }

/-- Assembly of the outgoing user message in app.main: a text block holding
the prompt followed by the pending file references with their filename key
removed; when no files are pending the content is the plain prompt string. -/
def assemble_user_message (prompt : String) (pending : List FileInfo) : Message :=
  match pending with
  | [] => { role := "user", content := Content.str prompt }
  | _ =>
      { role := "user",
        content := Content.blocks
          (Block.dict { type := "text", text := some prompt } ::
            pending.map (fun fi =>
              Block.dict (strip_filename_key (create_file_reference fi)))) }

/-- Every dict block of an input message carries no filename key. -/
def inputBlocksClean (m : Message) : Bool :=
  match m.content with
  | Content.blocks bs =>
      bs.all (fun b =>
        match b with
        | Block.dict d => d.filename.isNone
        | _ => true)
  | _ => true

/-- Every dict block of a translated message carries no filename key. -/
def outputBlocksClean (m : CMessage) : Bool :=
  match m.content with
  | CContent.blocks bs => bs.all (fun d => d.filename.isNone)
  | _ => true

/-!  The client registry (module tail of src/ai_client.py).  Construction of
a real client depends on the process environment (API keys, installed
packages); the environment is modelled as the fixed outcome of each
constructor, and object identity as a fresh-instance counter threaded through
the registry state. -/

/-- Outcome of each provider constructor in the current process environment. -/
structure Env where
  openaiCtor : Except String Unit
  claudeCtor : Except String Unit

/-- A constructed client instance: its provider class and its identity. -/
inductive ClientInstance where
  | openai (id : Nat)
  | claude (id : Nat)
deriving DecidableEq

/-- Mutable module state: the client_instances cache plus instrumentation
(fresh-instance counter and the number of constructor invocations per
provider). -/
structure RegistryState where
  cache : String → Option ClientInstance
  nextId : Nat
  openaiCtorCalls : Nat
  claudeCtorCalls : Nat

/-- The initial module state: an empty client_instances dict. -/
def initRegistry : RegistryState :=
  { cache := fun _ => none, nextId := 0, openaiCtorCalls := 0, claudeCtorCalls := 0 }

/-- Update of the client_instances dict at one provider tag. -/
def updateCache (f : String → Option ClientInstance) (k : String)
    (v : ClientInstance) : String → Option ClientInstance :=
  fun q => if q == k then some v else f q

/-- PROVIDERS[provider]() : run the constructor of the named provider class
in the given environment, recording the invocation and allocating a fresh
identity on success. -/
def constructClient (env : Env) (s : RegistryState) (provider : String) :
    Except String ClientInstance × RegistryState :=
  if provider == "claude" then
    match env.claudeCtor with
    | Except.ok _ =>
        (Except.ok (ClientInstance.claude s.nextId),
         { s with nextId := s.nextId + 1, claudeCtorCalls := s.claudeCtorCalls + 1 })
    | Except.error e =>
        (Except.error e, { s with claudeCtorCalls := s.claudeCtorCalls + 1 })
  else
    match env.openaiCtor with
    | Except.ok _ =>
        (Except.ok (ClientInstance.openai s.nextId),
         { s with nextId := s.nextId + 1, openaiCtorCalls := s.openaiCtorCalls + 1 })
    | Except.error e =>
        (Except.error e, { s with openaiCtorCalls := s.openaiCtorCalls + 1 })

/-- The MODEL_PROVIDERS mapping. -/
def MODEL_PROVIDERS : List (String × String) :=
  [("gpt-4o", "openai"), ("gpt-3.5-turbo", "openai"),
   ("claude-sonnet-4-20250514", "claude")]

/-- MODEL_PROVIDERS.get(model) with the default-to-openai fallback. -/
def lookupProvider (model : String) : String :=
  (MODEL_PROVIDERS.lookup model).getD "openai"

/-- get_ai_client: resolve the provider tag, serve from the cache when
present, otherwise construct; on construction failure of a non-default
provider construct a fresh OpenAI client and cache it under the failed tag
(an exception from that fallback construction propagates); failure of the
default provider propagates. -/
def get_ai_client (env : Env) (s : RegistryState) (model : String) :
    Except String ClientInstance × RegistryState :=
  let provider := lookupProvider model
  match s.cache provider with
  | some c => (Except.ok c, s)
  | none =>
      match constructClient env s provider with
      | (Except.ok c, s1) =>
          (Except.ok c, { s1 with cache := updateCache s1.cache provider c })
      | (Except.error e, s1) =>
          if provider == "openai" then (Except.error e, s1)
          else
            match constructClient env s1 "openai" with
            | (Except.ok c2, s2) =>
                (Except.ok c2, { s2 with cache := updateCache s2.cache provider c2 })
            | (Except.error e2, s2) => (Except.error e2, s2)

/-- get_available_models on OpenAIClient. -/
def openai_models : List String := ["gpt-4o", "gpt-3.5-turbo"]

/-- get_available_models on ClaudeClient. -/
def claude_models : List String := ["claude-sonnet-4-20250514"]

/-- The per-instance model list. -/
def modelsOf : ClientInstance → List String
  | ClientInstance.openai _ => openai_models
  | ClientInstance.claude _ => claude_models

/-- Iteration order of the PROVIDERS dict. -/
def providers_order : List String := ["openai", "claude"]

/-- One iteration of the get_available_models loop: fill the cache when the
provider is missing, list the models of the cached instance, and turn any
constructor exception into an empty model list. -/
def availableModelsStep (env : Env)
    (acc : List (String × List String) × RegistryState) (p : String) :
    List (String × List String) × RegistryState :=
  match acc.2.cache p with
  | some c => (acc.1 ++ [(p, modelsOf c)], acc.2)
  | none =>
      match constructClient env acc.2 p with
      | (Except.ok c, s1) =>
          (acc.1 ++ [(p, modelsOf c)],
           { s1 with cache := updateCache s1.cache p c })
      | (Except.error _, s1) => (acc.1 ++ [(p, [])], s1)

/-- get_available_models: collect each provider model list, never raising. -/
def get_available_models (env : Env) (s : RegistryState) :
    List (String × List String) × RegistryState :=
  providers_order.foldl (availableModelsStep env) ([], s)

/-- An operation touching the module cache during the process lifetime:
either a get_ai_client call or a get_available_models call (the only two
functions that read or write client_instances). -/
inductive RegistryOp where
  | resolveModel (model : String)
  | listModels
deriving DecidableEq

/-- State effect of one registry operation. -/
def runOp (env : Env) (s : RegistryState) : RegistryOp → RegistryState
  | RegistryOp.resolveModel m => (get_ai_client env s m).2
  | RegistryOp.listModels => (get_available_models env s).2

/-- State effect of a sequence of registry operations. -/
def runOps (env : Env) : List RegistryOp → RegistryState → RegistryState
  | [], s => s
  | op :: ops, s => runOps env ops (runOp env s op)

/-!  Concrete inputs used by the theorems. -/

/-- The message list used by the error-handling tests of the repository. -/
def testMessages : List Message := [⟨"user", Content.str "Test message"⟩]

/-- A transport that raises an Overloaded-class error on attempts 1 and 2 and
succeeds with a text block on attempt 3 (the side_effect list of the
test_retry_logic_for_overloaded_errors test). -/
def c1_transport : Nat → RequestParams → Except String MsgResponse := fun n _ =>
  if n == 0 || n == 1 then Except.error "overloaded_error"
  else Except.ok { content := [RespBlock.text "Success!"] }

/-- A transport that always raises an AuthFailure-class error. -/
def c2_auth_transport : Nat → RequestParams → Except String MsgResponse :=
  fun _ _ => Except.error "401 authentication"

/-- A transport that always raises a Generic-class error. -/
def c2_generic_transport : Nat → RequestParams → Except String MsgResponse :=
  fun _ _ => Except.error "Something went wrong"

/-- A message list with one system message, then an assistant message before
the first user message. -/
def c4_messages : List Message :=
  [⟨"system", Content.str "S"⟩, ⟨"assistant", Content.str "A"⟩,
   ⟨"user", Content.str "U"⟩]

/-- A content_block_delta event carrying a thinking chunk. -/
def thinkingDeltaEvent (s : String) : AEvent :=
  AEvent.content_block_delta { thinking := some s, text := none }

/-- A content_block_delta event carrying a text chunk. -/
def textDeltaEvent (s : String) : AEvent :=
  AEvent.content_block_delta { thinking := none, text := some s }

/-- An event stream holding one thinking block (block start plus the given
thinking deltas) followed by one answer block (block start plus the given
text deltas), properly terminated. -/
def c6_events (ts xs : List String) : List AEvent :=
  AEvent.content_block_start "thinking" :: ts.map thinkingDeltaEvent ++
    (AEvent.content_block_stop :: AEvent.content_block_start "text" ::
      xs.map textDeltaEvent ++ [AEvent.content_block_stop, AEvent.message_stop])

/-- An environment in which both provider constructors raise (no API key of
either kind is configured). -/
def c9_bad_env : Env :=
  ⟨Except.error "OPENAI_API_KEY environment variable is not set",
   Except.error "ANTHROPIC_API_KEY or CLAUDE_API_KEY environment variable is not set"⟩

/-- Claim C1 (code bug): on the input of the repository test
test_retry_logic_for_overloaded_errors (transport raising overloaded_error on
attempts 1 and 2, succeeding on attempt 3), create_response invokes the
transport exactly once and returns the formatted error string: the code has
no retry loop, contradicting the claim and the test, which require three
invocations, the success value and exponential backoff. -/
theorem c1_no_retry_in_code :
    ClaudeClient.create_response c1_transport testMessages
        "claude-sonnet-4-20250514" false 4000 = ("Error: overloaded_error", 1) ∧
    ("Error: overloaded_error" : String) ≠ "Success!" ∧ (1 : Nat) ≠ 3 := by
  refine ⟨by decide, by decide, by decide⟩

/-- Claim C2 (code bug): an AuthFailure-class error does invoke the transport
exactly once, but the returned message carries the same generic prefix
Error: as a Generic-class error, not the distinct authentication prefix that
the claim and the repository test test_authentication_error_handling
require. -/
theorem c2_uniform_error_prefix :
    ClaudeClient.create_response c2_auth_transport testMessages
        "claude-sonnet-4-20250514" false 4000 = ("Error: 401 authentication", 1) ∧
    ClaudeClient.create_response c2_generic_transport testMessages
        "claude-sonnet-4-20250514" false 4000 = ("Error: Something went wrong", 1) ∧
    pyStartsWith "Error: 401 authentication" "Error: " = true ∧
    pyStartsWith "Error: Something went wrong" "Error: " = true ∧
    pyStartsWith "Error: 401 authentication" "❌ **Authentication Error**" = false := by
  refine ⟨by decide, by decide, by decide, by decide, by decide⟩

/-- Claim C4, counterexample: a message list with a system message, at least
one user message, but an assistant message before the first user message; the
translator drops the system text entirely, so the first translated user
message text is the original text and not the system text prepended to it. -/
theorem c4_system_text_dropped :
    (c4_messages.any (fun m => m.role == "system")) = true ∧
    (c4_messages.any (fun m => m.role == "user")) = true ∧
    system_content c4_messages = "S\n\n" ∧
    convert_messages_to_claude_format c4_messages =
      [⟨"assistant", CContent.str "A"⟩, ⟨"user", CContent.str "U"⟩] ∧
    CContent.str "U" ≠ CContent.str ("S\n\n" ++ "U") := by
  refine ⟨by decide, by decide, by decide, by decide, by decide⟩

/-- Claim C6, counterexample: a stream with a thinking block followed by an
answer block whose first text delta starts with a newline; the normalizer
never emits the answer header, so the fragment sequence does not contain
exactly one answer-header fragment. -/
theorem c6_newline_skips_answer_header :
    ClaudeClient.create_stream
        (fun _ => Except.ok ((c6_events ["T"] ["\nHi"]).map Except.ok))
        [] "claude-sonnet-4-20250514" false 4000
      = [thinkingHeader, "T", thinkingDivider, "\nHi"] ∧
    ([thinkingHeader, "T", thinkingDivider, "\nHi"].count answerHeader) = 0 := by
  refine ⟨by decide, by decide⟩

/-- Once a message_stop event is consumed, the loop emits nothing further,
whatever is buffered behind it. -/
theorem runEventsExc_stop_absorbs (st : StreamState)
    (pre suf : List (Except String AEvent)) :
    runEventsExc st (pre ++ Except.ok AEvent.message_stop :: suf) =
      runEventsExc st (pre ++ [Except.ok AEvent.message_stop]) := by
  induction pre generalizing st with
  | nil => simp [runEventsExc]
  | cons e pre ih =>
    cases e with
    | error msg => simp [runEventsExc]
    | ok ev =>
      by_cases h : ev = AEvent.message_stop
      · subst h; simp [runEventsExc]
      · simp only [List.cons_append, runEventsExc, beq_eq_false_iff_ne.mpr h,
          Bool.false_eq_true, if_false]
        exact congrArg (fun l => (stepEvent st ev).1 ++ l) (ih _)

/-- Claim C7: once the message_stop terminator is consumed by the stream
normalizer, no further fragments are emitted, even when further events remain
buffered in the underlying iterator after it. -/
theorem c7_message_stop_terminates
    (messages : List Message) (model : String) (te : Bool) (tb : Nat)
    (pre suf : List (Except String AEvent)) :
    ClaudeClient.create_stream
        (fun _ => Except.ok (pre ++ Except.ok AEvent.message_stop :: suf))
        messages model te tb =
      ClaudeClient.create_stream
        (fun _ => Except.ok (pre ++ [Except.ok AEvent.message_stop]))
        messages model te tb := by
  simp [ClaudeClient.create_stream, runEventsExc_stop_absorbs]

/-- Claim C8: the baseline provider ignores the thinking options (its request
body never reads them) and, per the specification, the tools option it lacks;
the outcome of either entry point is identical to the call with all
capability options at their defaults, for every transport behavior. -/
theorem c8_baseline_ignores_capability_options
    (trS : OpenAIRequest → Except String (List (Except String (Option String))))
    (trR : OpenAIRequest → Except String String)
    (messages : List Message) (model : String)
    (te : Bool) (tb : Nat) (tools : Option (List ToolSpec)) :
    OpenAIClient.create_stream_with_options trS messages model te tb tools
        = OpenAIClient.create_stream_with_options trS messages model false 4000 none ∧
    OpenAIClient.create_response_with_options trR messages model te tb tools
        = OpenAIClient.create_response_with_options trR messages model false 4000 none :=
  ⟨rfl, rfl⟩

/-- Claim C9, counterexample: when the claude constructor fails and the
fallback OpenAI constructor also fails (no key configured), get_ai_client
propagates the exception instead of never raising. -/
theorem c9_resolve_can_raise :
    (get_ai_client c9_bad_env initRegistry "claude-sonnet-4-20250514").1
      = Except.error "OPENAI_API_KEY environment variable is not set" := by
  rfl

/-!  Claim C3: exceptions are converted, never propagated. -/

/-- The first exception encountered while iterating the event stream, unless
a message_stop terminator comes first. -/
def firstStreamError : List (Except String AEvent) → Option String
  | [] => none
  | Except.error e :: _ => some e
  | Except.ok ev :: rest =>
      if ev == AEvent.message_stop then none else firstStreamError rest

/-- The failure of a claude streaming exchange: an exception at request
creation, or the first exception raised while iterating the stream. -/
def claudeStreamFailure
    (transport : RequestParams → Except String (List (Except String AEvent)))
    (params : RequestParams) : Option String :=
  match transport params with
  | Except.error e => some e
  | Except.ok evs => firstStreamError evs

/-- The first exception encountered while iterating the chunk stream. -/
def firstChunkError : List (Except String (Option String)) → Option String
  | [] => none
  | Except.error e :: _ => some e
  | Except.ok _ :: rest => firstChunkError rest

/-- The failure of an OpenAI streaming exchange. -/
def openaiStreamFailure
    (transport : OpenAIRequest → Except String (List (Except String (Option String))))
    (req : OpenAIRequest) : Option String :=
  match transport req with
  | Except.error e => some e
  | Except.ok chunks => firstChunkError chunks

/-- When iterating raises, the event loop ends with the formatted error
fragment. -/
theorem runEventsExc_error_tail (l : List (Except String AEvent)) (e : String)
    (st : StreamState) (h : firstStreamError l = some e) :
    ∃ frags, runEventsExc st l = frags ++ ["Error: " ++ e] := by
  induction l generalizing st with
  | nil => simp [firstStreamError] at h
  | cons item rest ih =>
    cases item with
    | error e0 =>
      simp [firstStreamError] at h
      exact ⟨[], by simp [runEventsExc, h]⟩
    | ok ev =>
      by_cases hev : ev = AEvent.message_stop
      · subst hev; simp [firstStreamError] at h
      · have h2 : firstStreamError rest = some e := by
          simpa [firstStreamError, beq_eq_false_iff_ne.mpr hev] using h
        obtain ⟨frags, hf⟩ := ih (stepEvent st ev).2 h2
        refine ⟨(stepEvent st ev).1 ++ frags, ?_⟩
        simp [runEventsExc, beq_eq_false_iff_ne.mpr hev, hf]

/-- When iterating raises, the chunk loop ends with the formatted error
fragment. -/
theorem runChunks_error_tail (l : List (Except String (Option String)))
    (e : String) (h : firstChunkError l = some e) :
    ∃ frags, OpenAIClient.runChunks l = frags ++ ["Error: " ++ e] := by
  induction l with
  | nil => simp [firstChunkError] at h
  | cons item rest ih =>
    cases item with
    | error e0 =>
      simp [firstChunkError] at h
      exact ⟨[], by simp [OpenAIClient.runChunks, h]⟩
    | ok c =>
      have h2 : firstChunkError rest = some e := by
        simpa [firstChunkError] using h
      obtain ⟨frags, hf⟩ := ih h2
      exact ⟨(if (c.getD "") == "" then [] else [c.getD ""]) ++ frags,
        by simp [OpenAIClient.runChunks, hf]⟩

/-- Claim C3: no provider or network exception propagates out of the two
entry points of either client.  Whenever the transport fails — at creation or
mid-stream — the streaming path still returns a plain fragment list whose
final fragment is the error-formatted text, and the blocking path returns the
error-formatted string.  (Totality of the embedded functions models the
catch-all except of the source.) -/
theorem c3_errors_never_propagate
    (trC : RequestParams → Except String (List (Except String AEvent)))
    (trO : OpenAIRequest → Except String (List (Except String (Option String))))
    (trCR : Nat → RequestParams → Except String MsgResponse)
    (trOR : OpenAIRequest → Except String String)
    (messages : List Message) (model : String) (te : Bool) (tb : Nat) (e : String) :
    (claudeStreamFailure trC (claude_request messages model te tb true) = some e →
       ∃ frags, ClaudeClient.create_stream trC messages model te tb
         = frags ++ ["Error: " ++ e]) ∧
    (openaiStreamFailure trO { messages := messages, model := model, stream := true } = some e →
       ∃ frags, OpenAIClient.create_stream trO messages model te tb
         = frags ++ ["Error: " ++ e]) ∧
    (trCR 0 (claude_request messages model te tb false) = Except.error e →
       (ClaudeClient.create_response trCR messages model te tb).1 = "Error: " ++ e) ∧
    (trOR { messages := messages, model := model, stream := false } = Except.error e →
       OpenAIClient.create_response trOR messages model te tb = "Error: " ++ e) := by
  refine ⟨?_, ?_, ?_, ?_⟩
  · intro h
    unfold claudeStreamFailure at h
    cases htr : trC (claude_request messages model te tb true) with
    | error e0 =>
      rw [htr] at h
      simp at h
      exact ⟨[], by simp [ClaudeClient.create_stream, htr, h]⟩
    | ok evs =>
      rw [htr] at h
      simp at h
      simpa [ClaudeClient.create_stream, htr] using
        runEventsExc_error_tail evs e initStream h
  · intro h
    unfold openaiStreamFailure at h
    cases htr : trO { messages := messages, model := model, stream := true } with
    | error e0 =>
      rw [htr] at h
      simp at h
      exact ⟨[], by simp [OpenAIClient.create_stream, htr, h]⟩
    | ok chunks =>
      rw [htr] at h
      simp at h
      simpa [OpenAIClient.create_stream, htr] using runChunks_error_tail chunks e h
  · intro h
    simp [ClaudeClient.create_response, h]
  · intro h
    simp [OpenAIClient.create_response, h]

/-- Witness for C3: concrete failing transports on each of the four paths. -/
theorem c3_witness :
    (∃ frags, ClaudeClient.create_stream (fun _ => Except.error "boom")
        testMessages "claude-sonnet-4-20250514" false 4000 = frags ++ ["Error: " ++ "boom"]) ∧
    (∃ frags, OpenAIClient.create_stream (fun _ => Except.ok [Except.ok (some "hi"), Except.error "net down"])
        testMessages "gpt-4o" false 4000 = frags ++ ["Error: " ++ "net down"]) ∧
    (ClaudeClient.create_response (fun _ _ => Except.error "overloaded_error")
        testMessages "claude-sonnet-4-20250514" false 4000).1 = "Error: " ++ "overloaded_error" ∧
    OpenAIClient.create_response (fun _ => Except.error "401")
        testMessages "gpt-4o" false 4000 = "Error: " ++ "401" := by
  refine ⟨?_, ?_, ?_, ?_⟩
  · exact (c3_errors_never_propagate (fun _ => Except.error "boom")
      (fun _ => Except.ok []) (fun _ _ => Except.ok ⟨[]⟩) (fun _ => Except.ok "")
      testMessages "claude-sonnet-4-20250514" false 4000 "boom").1 rfl
  · exact (c3_errors_never_propagate (fun _ => Except.error "x")
      (fun _ => Except.ok [Except.ok (some "hi"), Except.error "net down"])
      (fun _ _ => Except.ok ⟨[]⟩) (fun _ => Except.ok "")
      testMessages "gpt-4o" false 4000 "net down").2.1 rfl
  · exact (c3_errors_never_propagate (fun _ => Except.error "x")
      (fun _ => Except.ok []) (fun _ _ => Except.error "overloaded_error")
      (fun _ => Except.ok "") testMessages "claude-sonnet-4-20250514" false 4000
      "overloaded_error").2.2.1 rfl
  · exact (c3_errors_never_propagate (fun _ => Except.error "x")
      (fun _ => Except.ok []) (fun _ _ => Except.ok ⟨[]⟩)
      (fun _ => Except.error "401") testMessages "gpt-4o" false 4000 "401").2.2.2 rfl

/-!  Claim C4: system-message folding. -/

/-- Appending to the empty string is the identity. -/
theorem empty_string_append (s : String) : "" ++ s = s := by
  cases s with
  | mk d => rfl

/-- A kept (non-system) message keeps its role, which is not the system
role. -/
theorem translateMsg_role {m : Message} {cm : CMessage}
    (h : translateMsg m = some cm) : cm.role ≠ "system" := by
  unfold translateMsg at h
  by_cases hr : m.role == "system"
  · simp [hr] at h
  · simp only [hr, Bool.false_eq_true, if_false, Option.some.injEq] at h
    subst h
    exact fun hh => (beq_eq_false_iff_ne.mp (by simpa using hr)) hh

/-- System messages translate to nothing. -/
theorem filterMap_translate_system_nil (pre : List Message)
    (hpre : ∀ m ∈ pre, m.role = "system") :
    pre.filterMap translateMsg = [] := by
  induction pre with
  | nil => rfl
  | cons m rest ih =>
    have hm := hpre m (List.mem_cons_self m rest)
    rw [List.filterMap_cons]
    have : translateMsg m = none := by simp [translateMsg, hm]
    rw [this]
    exact ih fun x hx => hpre x (List.mem_cons_of_mem m hx)

/-- No translated message carries the system role. -/
theorem convert_roles (msgs : List Message) :
    ∀ cm ∈ convert_messages_to_claude_format msgs, cm.role ≠ "system" := by
  intro cm hcm
  unfold convert_messages_to_claude_format at hcm
  have base : ∀ x ∈ msgs.filterMap translateMsg, x.role ≠ "system" := by
    intro x hx
    obtain ⟨m, _, ht⟩ := List.mem_filterMap.mp hx
    exact translateMsg_role ht
  cases hl : msgs.filterMap translateMsg with
  | nil => rw [hl] at hcm; simp [foldSystemIntoHead] at hcm
  | cons m0 rest =>
    rw [hl] at hcm
    rw [hl] at base
    simp only [foldSystemIntoHead] at hcm
    by_cases hc : (!(system_content msgs == "")) && (m0.role == "user")
    · rw [if_pos hc] at hcm
      cases hm0 : m0.content with
      | str s =>
        rw [hm0] at hcm
        rcases List.mem_cons.mp hcm with h | h
        · subst h; exact base m0 (List.mem_cons_self m0 rest)
        · exact base cm (List.mem_cons_of_mem m0 h)
      | blocks bs =>
        rw [hm0] at hcm
        rcases List.mem_cons.mp hcm with h | h
        · subst h; exact base m0 (List.mem_cons_self m0 rest)
        · exact base cm (List.mem_cons_of_mem m0 h)
    · rw [if_neg hc] at hcm
      exact base cm hcm

/-- Claim C4, amended: when additionally the first non-System message of the
list is a User message, the translation contains no System-role entry, the
first translated user message string content equals the concatenated system
texts (each followed by a blank line) prepended to the original text, and —
when that first User message is block-structured and the concatenated system
text is nonempty — the system text is inserted as a new leading text block. -/
theorem c4_system_fold_amended
    (pre : List Message) (u : Message) (rest : List Message)
    (hpre : ∀ m ∈ pre, m.role = "system") (hu : u.role = "user") :
    (∀ cm ∈ convert_messages_to_claude_format (pre ++ u :: rest), cm.role ≠ "system") ∧
    (∀ s, u.content = Content.str s →
       convert_messages_to_claude_format (pre ++ u :: rest) =
         ⟨"user", CContent.str (system_content (pre ++ u :: rest) ++ s)⟩ ::
           rest.filterMap translateMsg) ∧
    (∀ bs, u.content = Content.blocks bs →
       system_content (pre ++ u :: rest) ≠ "" →
       convert_messages_to_claude_format (pre ++ u :: rest) =
         ⟨"user", CContent.blocks (sysTextBlock (system_content (pre ++ u :: rest)) ::
            bs.filterMap translateBlock)⟩ :: rest.filterMap translateMsg) := by
  refine ⟨convert_roles _, ?_, ?_⟩
  · intro s hs
    have htu : translateMsg u = some ⟨"user", CContent.str s⟩ := by
      simp [translateMsg, hu, hs]
    have hfm : (pre ++ u :: rest).filterMap translateMsg =
        (⟨"user", CContent.str s⟩ : CMessage) :: rest.filterMap translateMsg := by
      rw [List.filterMap_append, filterMap_translate_system_nil pre hpre,
        List.filterMap_cons, htu]
      rfl
    unfold convert_messages_to_claude_format
    rw [hfm]
    simp only [foldSystemIntoHead]
    by_cases hsys : system_content (pre ++ u :: rest) == ""
    · rw [if_neg (by simp [hsys])]
      rw [show system_content (pre ++ u :: rest) = "" from by simpa using hsys,
        empty_string_append]
    · rw [if_pos (by simp [hsys])]
  · intro bs hbs hne
    have htu : translateMsg u =
        some ⟨"user", CContent.blocks (bs.filterMap translateBlock)⟩ := by
      simp [translateMsg, hu, hbs]
    have hfm : (pre ++ u :: rest).filterMap translateMsg =
        (⟨"user", CContent.blocks (bs.filterMap translateBlock)⟩ : CMessage) ::
          rest.filterMap translateMsg := by
      rw [List.filterMap_append, filterMap_translate_system_nil pre hpre,
        List.filterMap_cons, htu]
      rfl
    unfold convert_messages_to_claude_format
    rw [hfm]
    simp only [foldSystemIntoHead]
    rw [if_pos (by simp [hne])]

/-- Witness for C4: one system then one user message, string content. -/
theorem c4_witness :
    convert_messages_to_claude_format
        [⟨"system", Content.str "S"⟩, ⟨"user", Content.str "U"⟩] =
      [⟨"user", CContent.str (system_content
        [⟨"system", Content.str "S"⟩, ⟨"user", Content.str "U"⟩] ++ "U")⟩] := by
  exact (c4_system_fold_amended [⟨"system", Content.str "S"⟩]
    ⟨"user", Content.str "U"⟩ [] (by intro m hm; simp at hm; rw [hm]) rfl).2.1 "U" rfl

/-!  Claim C5: no display filename reaches the provider payload. -/

/-- Translating one clean message yields a clean message. -/
theorem translateMsg_clean {m : Message} {cm : CMessage}
    (hm : inputBlocksClean m = true) (ht : translateMsg m = some cm) :
    outputBlocksClean cm = true := by
  unfold translateMsg at ht
  by_cases hr : m.role == "system"
  · simp [hr] at ht
  · simp only [hr, Bool.false_eq_true, if_false, Option.some.injEq] at ht
    subst ht
    cases hc : m.content with
    | str s => simp [outputBlocksClean, hc]
    | other r => simp [outputBlocksClean, hc]
    | blocks bs =>
      simp only [outputBlocksClean, hc, List.all_eq_true]
      intro d hd
      obtain ⟨b, hb, htb⟩ := List.mem_filterMap.mp hd
      cases b with
      | str s =>
        simp [translateBlock] at htb
        rw [← htb]
        rfl
      | other r => simp [translateBlock] at htb
      | dict d0 =>
        simp only [translateBlock, Option.some.injEq] at htb
        subst htb
        simp only [inputBlocksClean, hc, List.all_eq_true] at hm
        exact hm (Block.dict d0) hb

/-- The system fold preserves cleanliness. -/
theorem foldSystemIntoHead_clean (sys : String) (l : List CMessage)
    (h : ∀ m ∈ l, outputBlocksClean m = true) :
    ∀ m ∈ foldSystemIntoHead sys l, outputBlocksClean m = true := by
  intro cm hcm
  cases l with
  | nil => simp [foldSystemIntoHead] at hcm
  | cons m0 rest =>
    simp only [foldSystemIntoHead] at hcm
    by_cases hc : (!(sys == "")) && (m0.role == "user")
    · rw [if_pos hc] at hcm
      cases hm0 : m0.content with
      | str s =>
        rw [hm0] at hcm
        rcases List.mem_cons.mp hcm with h1 | h1
        · subst h1; simp [outputBlocksClean]
        · exact h cm (List.mem_cons_of_mem m0 h1)
      | blocks bs =>
        rw [hm0] at hcm
        rcases List.mem_cons.mp hcm with h1 | h1
        · subst h1
          have hm0c := h m0 (List.mem_cons_self m0 rest)
          unfold outputBlocksClean at hm0c ⊢
          rw [hm0] at hm0c
          simp only [List.all_cons, Bool.and_eq_true]
          exact ⟨by simp [sysTextBlock], hm0c⟩
        · exact h cm (List.mem_cons_of_mem m0 h1)
    · rw [if_neg hc] at hcm
      exact h cm hcm

/-- All-clean inputs translate to all-clean outputs. -/
theorem convert_clean (msgs : List Message)
    (h : ∀ m ∈ msgs, inputBlocksClean m = true) :
    ∀ cm ∈ convert_messages_to_claude_format msgs, outputBlocksClean cm = true := by
  unfold convert_messages_to_claude_format
  refine foldSystemIntoHead_clean _ _ ?_
  intro cm hcm
  obtain ⟨m, hm, ht⟩ := List.mem_filterMap.mp hcm
  exact translateMsg_clean (h m hm) ht

/-- The outgoing user message assembled by the app is clean: the filename key
is removed from every attached file reference before it enters the message. -/
theorem assemble_user_message_clean (prompt : String) (pending : List FileInfo) :
    inputBlocksClean (assemble_user_message prompt pending) = true := by
  cases pending with
  | nil => rfl
  | cons fi rest =>
    simp only [assemble_user_message, inputBlocksClean, List.all_cons,
      Bool.and_eq_true, List.all_eq_true]
    refine ⟨by simp, ?_⟩
    intro b hb
    obtain ⟨x, _, hx⟩ := List.mem_map.mp hb
    rw [← hx]
    simp [strip_filename_key]

/-- Claim C5: for every chat history whose file blocks are clean (as every
message assembled by the app is) and every outgoing message assembled from a
prompt and pending uploads, the translated payload handed to the provider
transport carries no filename field on any block — only the file identifier
inside the source field survives. -/
theorem c5_no_filename_sent
    (history : List Message) (prompt : String) (pending : List FileInfo)
    (model : String) (te : Bool) (tb : Nat) (stream : Bool)
    (hhist : ∀ m ∈ history, inputBlocksClean m = true) :
    ∀ cm ∈ (claude_request (history ++ [assemble_user_message prompt pending])
              model te tb stream).messages, outputBlocksClean cm = true := by
  intro cm hcm
  refine convert_clean _ ?_ cm hcm
  intro m hm
  rcases List.mem_append.mp hm with h | h
  · exact hhist m h
  · simp at h
    rw [h]
    exact assemble_user_message_clean prompt pending

/-- Witness for C5: a PDF upload attached to a prompt after one plain text
exchange. -/
theorem c5_witness :
    ((claude_request
        ([⟨"user", Content.str "hello"⟩, ⟨"assistant", Content.str "hi"⟩] ++
          [assemble_user_message "summarize this"
            [⟨"file_123", "Report.PDF", "application/pdf"⟩]])
        "claude-sonnet-4-20250514" false 4000 true).messages.all
      outputBlocksClean) = true := by
  refine List.all_eq_true.mpr ?_
  exact c5_no_filename_sent
    [⟨"user", Content.str "hello"⟩, ⟨"assistant", Content.str "hi"⟩]
    "summarize this" [⟨"file_123", "Report.PDF", "application/pdf"⟩]
    "claude-sonnet-4-20250514" false 4000 true
    (by decide)

/-!  Claim C6: header fragments around a thinking block and an answer
block. -/

/-- A string whose data is empty is the empty string. -/
theorem string_eq_empty_of_data (s : String) (h : s.data = []) : s = "" :=
  congrArg String.mk h

/-- A string with a nonempty right factor is nonempty. -/
theorem append_ne_empty_right (a b : String) (hb : b ≠ "") : a ++ b ≠ "" := by
  intro h
  apply hb
  have hd : (a ++ b).data = [] := by rw [h]
  rw [String.data_append] at hd
  exact string_eq_empty_of_data b (List.append_eq_nil.mp hd).2

/-- startswith is stable under appending on the right. -/
theorem pyStartsWith_append (s t p : String) (h : pyStartsWith s p = true) :
    pyStartsWith (s ++ t) p = true := by
  unfold pyStartsWith at h ⊢
  rw [String.data_append]
  exact List.isPrefixOf_iff_prefix.mpr
    ((List.isPrefixOf_iff_prefix.mp h).trans (List.prefix_append _ _))

/-- Unrolling of the event loop on a non-terminator event. -/
theorem runEventsExc_cons_ok (st : StreamState) (e : AEvent)
    (rest : List (Except String AEvent)) (hne : e ≠ AEvent.message_stop) :
    runEventsExc st (Except.ok e :: rest)
      = (stepEvent st e).1 ++ runEventsExc (stepEvent st e).2 rest := by
  simp [runEventsExc, beq_eq_false_iff_ne.mpr hne]

/-- A run of nonempty thinking deltas yields exactly the chunks, accumulating
them into thinking_content (which is nonempty afterwards if a chunk or the
prior content was). -/
theorem runEventsExc_thinking_run (ts : List String) (st : StreamState)
    (rest : List (Except String AEvent)) (hts : ∀ t ∈ ts, t ≠ "") :
    ∃ tc, runEventsExc st
        (ts.map (fun t => Except.ok (thinkingDeltaEvent t)) ++ rest)
        = ts ++ runEventsExc ⟨tc, st.text_content, st.current_content_type⟩ rest ∧
      ((st.thinking_content ≠ "" ∨ ts ≠ []) → tc ≠ "") := by
  induction ts generalizing st with
  | nil =>
    refine ⟨st.thinking_content, by simp, ?_⟩
    intro h
    rcases h with h | h
    · exact h
    · simp at h
  | cons t ts ih =>
    have htne : t ≠ "" := hts t (List.mem_cons_self t ts)
    have hstep : stepEvent st (thinkingDeltaEvent t)
        = ([t], { st with thinking_content := st.thinking_content ++ t }) := by
      simp [stepEvent, thinkingDeltaEvent, beq_eq_false_iff_ne.mpr htne]
    obtain ⟨tc, heq, hcond⟩ :=
      ih { st with thinking_content := st.thinking_content ++ t }
        (fun x hx => hts x (List.mem_cons_of_mem t hx))
    refine ⟨tc, ?_, ?_⟩
    · rw [List.map_cons, List.cons_append,
        runEventsExc_cons_ok _ _ _ (by simp [thinkingDeltaEvent]), hstep]
      simp only at heq ⊢
      rw [heq]
      simp
    · intro _
      exact hcond (Or.inl (append_ne_empty_right _ _ htne))

/-- Once text_content starts with a newline, a run of nonempty text deltas
yields exactly the chunks, with text_content still starting with a
newline. -/
theorem runEventsExc_text_run (xs : List String) (st : StreamState)
    (rest : List (Except String AEvent)) (hxs : ∀ x ∈ xs, x ≠ "")
    (hpre : pyStartsWith st.text_content "\n" = true) :
    ∃ tc, runEventsExc st
        (xs.map (fun x => Except.ok (textDeltaEvent x)) ++ rest)
        = xs ++ runEventsExc ⟨st.thinking_content, tc, st.current_content_type⟩ rest := by
  induction xs generalizing st with
  | nil => exact ⟨st.text_content, by simp⟩
  | cons x xs ih =>
    have hxne : x ≠ "" := hxs x (List.mem_cons_self x xs)
    have hstep : stepEvent st (textDeltaEvent x)
        = ([x], { st with text_content := st.text_content ++ x }) := by
      simp [stepEvent, textDeltaEvent, handleTextDelta,
        beq_eq_false_iff_ne.mpr hxne, pyStartsWith_append _ _ _ hpre]
    obtain ⟨tc, heq⟩ :=
      ih { st with text_content := st.text_content ++ x }
        (fun y hy => hxs y (List.mem_cons_of_mem x hy))
        (pyStartsWith_append _ _ _ hpre)
    refine ⟨tc, ?_⟩
    rw [List.map_cons, List.cons_append,
      runEventsExc_cons_ok _ _ _ (by simp [textDeltaEvent]), hstep]
    simp only at heq ⊢
    rw [heq]
    simp

/-- Claim C6, amended: for a stream holding a thinking block (block start
plus one or more nonempty thinking deltas) followed by an answer block (one
or more nonempty text deltas) whose first text delta does not start with a
newline, the emitted fragments are exactly one thinking header, then the
thinking chunks, the divider, exactly one answer header and the answer
chunks, in that order. -/
theorem c6_headers_amended
    (t0 x0 : String) (ts xs : List String)
    (messages : List Message) (model : String) (te : Bool) (tb : Nat)
    (ht0 : t0 ≠ "") (hts : ∀ t ∈ ts, t ≠ "")
    (hx0 : x0 ≠ "") (hxs : ∀ x ∈ xs, x ≠ "")
    (hnl : pyStartsWith x0 "\n" = false) :
    ClaudeClient.create_stream
        (fun _ => Except.ok ((c6_events (t0 :: ts) (x0 :: xs)).map Except.ok))
        messages model te tb
      = thinkingHeader :: ((t0 :: ts) ++ thinkingDivider :: answerHeader :: x0 :: xs) := by
  have hnexts : ∀ t ∈ t0 :: ts, t ≠ "" := by
    intro t ht
    rcases List.mem_cons.mp ht with h | h
    · exact h ▸ ht0
    · exact hts t h
  show runEventsExc initStream ((c6_events (t0 :: ts) (x0 :: xs)).map Except.ok) = _
  have hevents : (c6_events (t0 :: ts) (x0 :: xs)).map Except.ok
      = (Except.ok (AEvent.content_block_start "thinking") : Except String AEvent) ::
          ((t0 :: ts).map (fun t => Except.ok (thinkingDeltaEvent t)) ++
            (Except.ok AEvent.content_block_stop ::
              Except.ok (AEvent.content_block_start "text") ::
                ((x0 :: xs).map (fun x => Except.ok (textDeltaEvent x)) ++
                  [Except.ok AEvent.content_block_stop,
                   Except.ok AEvent.message_stop]))) := by
    simp [c6_events, List.map_append, Function.comp_def]
  rw [hevents]
  rw [runEventsExc_cons_ok _ _ _ (by simp)]
  have hstep1 : stepEvent initStream (AEvent.content_block_start "thinking")
      = ([thinkingHeader], ⟨"", "", some "thinking"⟩) := rfl
  rw [hstep1]
  obtain ⟨tc1, heq1, hcond1⟩ :=
    runEventsExc_thinking_run (t0 :: ts) ⟨"", "", some "thinking"⟩
      (Except.ok AEvent.content_block_stop ::
        Except.ok (AEvent.content_block_start "text") ::
          ((x0 :: xs).map (fun x => Except.ok (textDeltaEvent x)) ++
            [Except.ok AEvent.content_block_stop,
             Except.ok AEvent.message_stop])) hnexts
  have htc1 : tc1 ≠ "" := hcond1 (Or.inr (List.cons_ne_nil t0 ts))
  simp only at heq1
  rw [heq1]
  have hrest : runEventsExc ⟨tc1, "", some "thinking"⟩
      (Except.ok AEvent.content_block_stop ::
        Except.ok (AEvent.content_block_start "text") ::
          ((x0 :: xs).map (fun x => Except.ok (textDeltaEvent x)) ++
            [Except.ok AEvent.content_block_stop,
             Except.ok AEvent.message_stop]))
      = thinkingDivider :: answerHeader :: x0 :: xs := by
    rw [runEventsExc_cons_ok _ _ _ (by simp)]
    have hs1 : stepEvent ⟨tc1, "", some "thinking"⟩ AEvent.content_block_stop
        = ([thinkingDivider], ⟨tc1, "", some "thinking"⟩) := rfl
    rw [hs1]
    rw [runEventsExc_cons_ok _ _ _ (by simp)]
    have hs2 : stepEvent ⟨tc1, "", some "thinking"⟩ (AEvent.content_block_start "text")
        = ([], ⟨tc1, "", some "text"⟩) := rfl
    rw [hs2]
    simp only [List.map_cons, List.cons_append]
    rw [runEventsExc_cons_ok _ (textDeltaEvent x0) _ (by simp [textDeltaEvent])]
    have hs3 : stepEvent ⟨tc1, "", some "text"⟩ (textDeltaEvent x0)
        = ([answerHeader, x0], ⟨tc1, answerHeader ++ x0, some "text"⟩) := by
      simp [stepEvent, textDeltaEvent, handleTextDelta,
        beq_eq_false_iff_ne.mpr hx0, beq_eq_false_iff_ne.mpr htc1,
        empty_string_append, hnl]
    rw [hs3]
    obtain ⟨tc2, heq2⟩ :=
      runEventsExc_text_run xs ⟨tc1, answerHeader ++ x0, some "text"⟩
        [Except.ok AEvent.content_block_stop, Except.ok AEvent.message_stop] hxs
        (pyStartsWith_append answerHeader x0 "\n" (by decide))
    simp only at heq2
    rw [heq2]
    have htail : runEventsExc ⟨tc1, tc2, some "text"⟩
        [Except.ok AEvent.content_block_stop, Except.ok AEvent.message_stop] = [] := by
      rw [runEventsExc_cons_ok _ _ _ (by simp)]
      have hs4 : stepEvent ⟨tc1, tc2, some "text"⟩ AEvent.content_block_stop
          = ([], ⟨tc1, tc2, some "text"⟩) := rfl
      rw [hs4]
      simp [runEventsExc]
    rw [htail]
    simp
  rw [hrest]
  simp

/-- Witness for C6: two thinking chunks and two answer chunks. -/
theorem c6_witness :
    ClaudeClient.create_stream
        (fun _ => Except.ok ((c6_events ["T1", "T2"] ["A1", "A2"]).map Except.ok))
        testMessages "claude-sonnet-4-20250514" true 4000
      = thinkingHeader :: (["T1", "T2"] ++ thinkingDivider :: answerHeader :: "A1" :: ["A2"]) := by
  exact c6_headers_amended "T1" "A1" ["T2"] ["A2"]
    testMessages "claude-sonnet-4-20250514" true 4000
    (by decide) (by decide) (by decide) (by decide) (by decide)

/-!  Claims C9 and C10: the client registry. -/

/-- The environment used by the registry witnesses: the OpenAI constructor
succeeds, the claude constructor raises. -/
def fallback_env : Env := ⟨Except.ok (), Except.error "boom"⟩

/-- Claim C9, amended: provided the baseline (OpenAI) constructor succeeds,
resolving an unmapped model returns a baseline instance, a claude
construction failure falls back to a baseline instance without raising, and
listing models never raises, the failing provider contributing an empty
list. -/
theorem c9_registry_amended (env : Env) (hO : env.openaiCtor = Except.ok ()) :
    (∀ model, MODEL_PROVIDERS.lookup model = none →
       (get_ai_client env initRegistry model).1
         = Except.ok (ClientInstance.openai 0)) ∧
    (∀ e, env.claudeCtor = Except.error e →
       (get_ai_client env initRegistry "claude-sonnet-4-20250514").1
         = Except.ok (ClientInstance.openai 0)) ∧
    (∀ e, env.claudeCtor = Except.error e →
       (get_available_models env initRegistry).1
         = [("openai", openai_models), ("claude", [])]) := by
  refine ⟨?_, ?_, ?_⟩
  · intro model hmodel
    simp [get_ai_client, lookupProvider, hmodel, initRegistry, constructClient, hO]
  · intro e hC
    have hp : lookupProvider "claude-sonnet-4-20250514" = "claude" := rfl
    simp [get_ai_client, hp, initRegistry, constructClient, hC, hO]
  · intro e hC
    simp [get_available_models, providers_order, availableModelsStep,
      initRegistry, constructClient, hO, hC, updateCache, modelsOf]

/-- Witness for C9: the concrete fallback environment. -/
theorem c9_witness :
    (get_ai_client fallback_env initRegistry "unknown-model-xyz").1
      = Except.ok (ClientInstance.openai 0) ∧
    (get_ai_client fallback_env initRegistry "claude-sonnet-4-20250514").1
      = Except.ok (ClientInstance.openai 0) ∧
    (get_available_models fallback_env initRegistry).1
      = [("openai", openai_models), ("claude", [])] := by
  refine ⟨?_, ?_, ?_⟩
  · exact (c9_registry_amended fallback_env rfl).1 "unknown-model-xyz" (by decide)
  · exact (c9_registry_amended fallback_env rfl).2.1 "boom" rfl
  · exact (c9_registry_amended fallback_env rfl).2.2 "boom" rfl

/-- Every resolved provider tag is one of the two registered tags. -/
theorem lookupProvider_cases (m : String) :
    lookupProvider m = "openai" ∨ lookupProvider m = "claude" := by
  unfold lookupProvider MODEL_PROVIDERS
  simp only [List.lookup]
  by_cases h1 : (m == "gpt-4o") = true
  · simp [h1]
  · simp only [h1]
    by_cases h2 : (m == "gpt-3.5-turbo") = true
    · simp [h2]
    · simp only [h2]
      by_cases h3 : (m == "claude-sonnet-4-20250514") = true
      · simp [h3]
      · simp [h3]

/-- A registry operation never replaces an existing claude cache entry and
never re-invokes the claude constructor while one is present. -/
theorem runOp_preserves_claude_entry (env : Env) (op : RegistryOp)
    (s : RegistryState) (c : ClientInstance) (h : s.cache "claude" = some c) :
    (runOp env s op).cache "claude" = some c ∧
      (runOp env s op).claudeCtorCalls = s.claudeCtorCalls := by
  cases op with
  | resolveModel m =>
    rcases lookupProvider_cases m with hp | hp
    · simp only [runOp, get_ai_client, hp]
      cases hoc : s.cache "openai" with
      | some c2 => exact ⟨h, rfl⟩
      | none =>
        cases henv : env.openaiCtor with
        | ok u =>
          simp [constructClient, henv, updateCache,
            show (("claude" : String) == "openai") = false from rfl]
          exact h
        | error e => simp [constructClient, henv, h]
    · simp [runOp, get_ai_client, hp, h]
  | listModels =>
    simp only [runOp, get_available_models, providers_order, List.foldl]
    have step1 := availableModelsStep env ([], s) "openai"
    rcases hoc : s.cache "openai" with _ | c2
    · cases henv : env.openaiCtor with
      | ok u =>
        simp [availableModelsStep, hoc, henv, constructClient, updateCache,
          show (("claude" : String) == "openai") = false from rfl, h]
      | error e =>
        simp [availableModelsStep, hoc, henv, constructClient, h]
    · simp [availableModelsStep, hoc, h]

/-- Extension of the preservation to arbitrary operation sequences. -/
theorem runOps_preserves_claude_entry (env : Env) (ops : List RegistryOp)
    (s : RegistryState) (c : ClientInstance) (h : s.cache "claude" = some c) :
    (runOps env ops s).cache "claude" = some c ∧
      (runOps env ops s).claudeCtorCalls = s.claudeCtorCalls := by
  induction ops generalizing s with
  | nil => exact ⟨h, rfl⟩
  | cons op ops ih =>
    obtain ⟨h1, h2⟩ := runOp_preserves_claude_entry env op s c h
    obtain ⟨h3, h4⟩ := ih (runOp env s op) h1
    refine ⟨h3, ?_⟩
    show (runOps env ops (runOp env s op)).claudeCtorCalls = s.claudeCtorCalls
    rw [h4, h2]

/-- Claim C10: when the claude constructor fails and the baseline succeeds,
the fallback baseline instance is cached under the claude tag with exactly
one claude constructor attempt; from then on, whatever registry operations
run, that entry and the attempt count are unchanged and resolving the
claude-mapped model returns the same cached baseline instance; resolving an
OpenAI model afterwards constructs a second, distinct baseline instance, so
the cache holds two distinct baseline instances under the two tags. -/
theorem c10_fallback_cached_under_failed_tag (env : Env) (e : String)
    (hO : env.openaiCtor = Except.ok ()) (hC : env.claudeCtor = Except.error e) :
    (get_ai_client env initRegistry "claude-sonnet-4-20250514").1
        = Except.ok (ClientInstance.openai 0) ∧
    (get_ai_client env initRegistry "claude-sonnet-4-20250514").2.cache "claude"
        = some (ClientInstance.openai 0) ∧
    (get_ai_client env initRegistry "claude-sonnet-4-20250514").2.claudeCtorCalls = 1 ∧
    (∀ ops : List RegistryOp,
       (runOps env ops (get_ai_client env initRegistry "claude-sonnet-4-20250514").2).cache "claude"
           = some (ClientInstance.openai 0) ∧
       (runOps env ops (get_ai_client env initRegistry "claude-sonnet-4-20250514").2).claudeCtorCalls = 1 ∧
       (get_ai_client env
           (runOps env ops (get_ai_client env initRegistry "claude-sonnet-4-20250514").2)
           "claude-sonnet-4-20250514").1 = Except.ok (ClientInstance.openai 0)) ∧
    ((get_ai_client env (get_ai_client env initRegistry "claude-sonnet-4-20250514").2 "gpt-4o").1
        = Except.ok (ClientInstance.openai 1) ∧
     (get_ai_client env (get_ai_client env initRegistry "claude-sonnet-4-20250514").2 "gpt-4o").2.cache "openai"
        = some (ClientInstance.openai 1) ∧
     (get_ai_client env (get_ai_client env initRegistry "claude-sonnet-4-20250514").2 "gpt-4o").2.cache "claude"
        = some (ClientInstance.openai 0) ∧
     ClientInstance.openai 1 ≠ ClientInstance.openai 0) := by
  have hp : lookupProvider "claude-sonnet-4-20250514" = "claude" := rfl
  have hs1 : get_ai_client env initRegistry "claude-sonnet-4-20250514"
      = (Except.ok (ClientInstance.openai 0),
         { cache := updateCache (fun _ => none) "claude" (ClientInstance.openai 0),
           nextId := 1, openaiCtorCalls := 1, claudeCtorCalls := 1 }) := by
    simp [get_ai_client, hp, initRegistry, constructClient, hC, hO]
  have hcache1 : (get_ai_client env initRegistry "claude-sonnet-4-20250514").2.cache "claude"
      = some (ClientInstance.openai 0) := by
    rw [hs1]
    simp [updateCache]
  refine ⟨by rw [hs1], hcache1, by rw [hs1], ?_, ?_⟩
  · intro ops
    obtain ⟨h1, h2⟩ := runOps_preserves_claude_entry env ops _ _ hcache1
    refine ⟨h1, ?_, ?_⟩
    · rw [h2, hs1]
    · rw [hs1] at h1
      rw [hs1]
      simp [get_ai_client, hp, h1]
  · have hp2 : lookupProvider "gpt-4o" = "openai" := rfl
    rw [hs1]
    refine ⟨?_, ?_, ?_, by decide⟩
    · simp [get_ai_client, hp2, updateCache, constructClient, hO,
        show (("openai" : String) == "claude") = false from rfl]
    · simp [get_ai_client, hp2, updateCache, constructClient, hO,
        show (("openai" : String) == "claude") = false from rfl]
    · simp [get_ai_client, hp2, updateCache, constructClient, hO,
        show (("openai" : String) == "claude") = false from rfl,
        show (("claude" : String) == "openai") = false from rfl]

/-- Witness for C10: the concrete fallback environment and a concrete
operation sequence (one model listing, one OpenAI resolution). -/
theorem c10_witness :
    (get_ai_client fallback_env initRegistry "claude-sonnet-4-20250514").1
        = Except.ok (ClientInstance.openai 0) ∧
    (runOps fallback_env [RegistryOp.listModels, RegistryOp.resolveModel "gpt-3.5-turbo"]
        (get_ai_client fallback_env initRegistry "claude-sonnet-4-20250514").2).cache "claude"
        = some (ClientInstance.openai 0) ∧
    (runOps fallback_env [RegistryOp.listModels, RegistryOp.resolveModel "gpt-3.5-turbo"]
        (get_ai_client fallback_env initRegistry "claude-sonnet-4-20250514").2).claudeCtorCalls = 1 ∧
    ClientInstance.openai 1 ≠ ClientInstance.openai 0 := by
  refine ⟨(c10_fallback_cached_under_failed_tag fallback_env "boom" rfl rfl).1,
    ((c10_fallback_cached_under_failed_tag fallback_env "boom" rfl rfl).2.2.2.1
      [RegistryOp.listModels, RegistryOp.resolveModel "gpt-3.5-turbo"]).1,
    ((c10_fallback_cached_under_failed_tag fallback_env "boom" rfl rfl).2.2.2.1
      [RegistryOp.listModels, RegistryOp.resolveModel "gpt-3.5-turbo"]).2.1,
    (c10_fallback_cached_under_failed_tag fallback_env "boom" rfl rfl).2.2.2.2.2.2.2⟩

end GPTUI
